import Mathlib

/-!
Shallow embedding of the `nai-llm-k8s` repository (directory `llm/` and
`llm/utils/`) together with proofs about its specification claims.

Python functions are translated into Lean as follows: pure list/string
manipulation becomes Lean functions on `List`/`String`; filesystem and
network effects become explicit parameters (e.g. the contents of a
directory is an `Option (List String)`, `none` meaning the directory does
not exist); `sys.exit(1)` and uncaught Python exceptions are modelled by
the `PyRes` result type below; machine-level concerns do not arise (all
integers involved are small non-negative counts, modelled as `Nat`).
-/

/-- Result of running a Python function: normal return, `sys.exit(code)`,
or an uncaught exception (such as `UnboundLocalError` / `IndexError`). -/
inductive PyRes (α : Type) where
  | ok (a : α)
  | exit (code : Nat)
  | exn
  deriving DecidableEq, Repr

/-! ## `llm/generate.py` and `llm/download.py` -/

/-- Embeds `compare_lists` (generate.py lines 54-65):
`return Counter(list1) == Counter(list2)`.
Two `collections.Counter` objects are equal exactly when every element has
the same multiplicity in both lists; elements absent from both have
multiplicity 0, so it suffices to compare counts of the elements of
`list1 ++ list2`. -/
def compare_lists (list1 list2 : List String) : Bool :=
  (list1 ++ list2).all fun x => list1.count x == list2.count x

/-- Embeds the regex built by `filter_files_by_extension`
(generate.py line 81):
`pattern = "|".join([re.escape(suffix) + "$" for suffix in extensions_to_remove])`
followed by `re.search(pattern, filename)`.
For a non-empty suffix list the pattern is an alternation of end-anchored
escaped literals, which matches `filename` exactly when some suffix of the
list is a string-suffix of `filename`.  For the empty list the joined
pattern is the empty string, and `re.search("", s)` matches every
string. -/
def search_joined_pattern (extensions_to_remove : List String)
    (filename : String) : Bool :=
  if extensions_to_remove.isEmpty then true
  else extensions_to_remove.any fun suffix =>
    decide (suffix.toList <:+ filename.toList)

/-- Embeds `filter_files_by_extension` (generate.py lines 68-87, identical
in download.py): keeps the filenames on which `re.search(pattern, ·)`
finds no match. -/
def filter_files_by_extension (filenames : List String)
    (extensions_to_remove : List String) : List String :=
  filenames.filter fun filename =>
    !(search_joined_pattern extensions_to_remove filename)

/-- generate.py line 31: extensions whose files are ignored. -/
def FILE_EXTENSIONS_TO_IGNORE : List String :=
  [".safetensors", ".safetensors.index.json", ".h5", ".ot", ".tflite",
   ".msgpack", ".onnx"]

/-- Embeds `check_if_mar_file_exist` (generate.py lines 161-176).  The
`mar_output` directory is given as `none` (path does not exist) or
`some directory_contents` (the `os.listdir` result). -/
def check_if_mar_file_exist (model_name : String)
    (mar_output : Option (List String)) : Bool :=
  let mar_filename := model_name ++ ".mar"
  match mar_output with
  | some directory_contents =>
      directory_contents.length == 1
        && directory_contents.headD "" == mar_filename
  | none => false

/-- What `create_mar` (generate.py lines 297-335) ends up doing: take the
skip branch, terminate via `sys.exit(1)` inside one of its validation
checks, or call `mg.generate_mars`. -/
inductive CreateMarOutcome where
  | skip
  | exitOne
  | generated
  deriving DecidableEq, Repr

/-- Embeds `create_mar` (generate.py lines 297-335).  Filesystem state is
passed explicitly: `mar_output` as in `check_if_mar_file_exist`,
`model_path_exists` is the `check_if_path_exists` test on
`mar_utils.model_path`, `model_files_match` the result of
`check_if_model_files_exist`, and `model_folder_empty` the result of
`check_if_folder_empty`. -/
def create_mar (model_name : String) (mar_output : Option (List String))
    (is_custom : Bool) (model_path_exists : Bool)
    (model_files_match : Bool) (model_folder_empty : Bool) :
    CreateMarOutcome :=
  if check_if_mar_file_exist model_name mar_output then
    .skip
  else if !model_path_exists then
    .exitOne
  else if !is_custom then
    if !model_files_match then .exitOne else .generated
  else if model_folder_empty then
    .exitOne
  else
    .generated

/-! ## `llm/utils/tsutils.py` and the snapshot line of `set_config` -/

/-- The `registration_params` block of a catalog entry in
`model_config.json`; a field is `none` when the key is absent from the
block (tsutils.py lines 113-125 leave the corresponding variable
`None`). -/
structure RegistrationParams where
  initial_workers : Option Nat
  batch_size : Option Nat
  max_batch_delay : Option Nat
  response_timeout : Option Nat
  deriving DecidableEq, Repr

/-- Embeds `get_params_for_registration` (tsutils.py lines 97-126): the
four variables start as `None` and are filled from the
`registration_params` block when the catalog entry has one (`none` models
a catalog entry without the block). -/
def get_params_for_registration (registration_params : Option RegistrationParams) :
    Option Nat × Option Nat × Option Nat × Option Nat :=
  match registration_params with
  | none => (none, none, none, none)
  | some p => (p.initial_workers, p.batch_size, p.max_batch_delay, p.response_timeout)

/-- Python's `x or d` for an optional integer `x`: yields `d` when `x` is
`None` or `0` (both falsy), otherwise the value of `x`.  Used by
`set_config` as `initial_workers or 1` etc. (generate.py lines 133-136). -/
def py_or (x : Option Nat) (d : Nat) : Nat :=
  match x with
  | none => d
  | some n => if n == 0 then d else n

/-- The fields written into the `model_snapshot` line by `set_config`
(generate.py lines 126-137). -/
structure SnapshotParams where
  version : String
  minWorkers : Nat
  maxWorkers : Nat
  batchSize : Nat
  maxBatchDelay : Nat
  responseTimeout : Nat
  deriving DecidableEq, Repr

/-- Embeds the `model_snapshot` construction of `set_config` (generate.py
lines 119-137): the version key is `gen_model.repo_info.repo_version` and
the parameters come from `get_params_for_registration` with Python `or`
defaults `1, 1, 1, 500, 2000`. -/
def set_config_snapshot (repo_version : String)
    (registration_params : Option RegistrationParams) : SnapshotParams :=
  let (initial_workers, batch_size, max_batch_delay, response_timeout) :=
    get_params_for_registration registration_params
  { version := repo_version
    minWorkers := py_or initial_workers 1
    maxWorkers := py_or initial_workers 1
    batchSize := py_or batch_size 1
    maxBatchDelay := py_or max_batch_delay 500
    responseTimeout := py_or response_timeout 2000 }

/-! ## `llm/utils/hf_utils.py` -/

/-- Python's `s.startswith(pre)`: `pre` is a prefix of `s`. -/
def starts_with (s pre : String) : Bool :=
  decide (pre.toList <+: s.toList)

/-- Embeds `hf_token_check` (hf_utils.py lines 94-118):
`sys.exit(1)` when `repo_id.startswith("meta-llama")` and the token is
`None`, otherwise fall through. -/
def hf_token_check (repo_id : String) (token : Option String) : PyRes Unit :=
  if starts_with repo_id "meta-llama" && token.isNone then .exit 1
  else .ok ()

/-- Embeds `get_repo_commit_id` (hf_utils.py lines 55-91).  The hub call
`list_repo_commits` is passed in as its outcome: `.error ()` for the
caught hub/validation errors (which the function turns into
`sys.exit(1)`), `.ok commits` for a successful lookup returning the
commit ids most recent first.  On an empty commit list the subscript
`commit_info[0]` raises `IndexError`, which is not in the except clause
and propagates (`.exn`). -/
def get_repo_commit_id (lookup : Except Unit (List String)) : PyRes String :=
  match lookup with
  | .error _ => .exit 1
  | .ok [] => .exn
  | .ok (commit :: _) => .ok commit

/-! ## `read_config_for_download` (generate.py lines 179-259) -/

/-- `gen_model.repo_info`: `repo_version` and `hf_token` default to `None`
(argparse defaults), modelled as `Option String`. -/
structure RepoInfo where
  repo_id : String
  repo_version : Option String
  hf_token : Option String
  deriving DecidableEq, Repr

/-- A catalog entry `models[model_name]` of `model_config.json`:
`repo_id`, `repo_version`, and an optional `handler` (`none` models a
missing or falsy `handler` key, generate.py lines 211-215). -/
structure ModelCfg where
  repo_id : String
  repo_version : String
  handler : Option String
  deriving DecidableEq, Repr

/-- generate.py line 29: default handler file name. -/
def HANDLER : String := "handler.py"

/-- Embeds `read_config_for_download` (generate.py lines 179-259).
Environment made explicit: `cfg` is `models[model_name]` when the model
name is in `model_config.json` (`none` otherwise); `lookup` maps the
revision passed to `hf_api.list_repo_commits` to that call's outcome (cf.
`get_repo_commit_id`); `handler_exists` is the `check_if_path_exists`
test on the resolved handler path.  The first component of the result is
the updated `(repo_info, handler_path, is_custom)` triple or the
termination the function ran into; the second component records whether a
hub commit-history lookup was attempted. -/
def read_config_for_download (cfg : Option ModelCfg) (download_model : Bool)
    (repo_info : RepoInfo) (handler_path : String)
    (lookup : Option String → Except Unit (List String)) (handler_exists : Bool) :
    PyRes (RepoInfo × String × Bool) × Bool :=
  match cfg with
  | some model =>
      let ri := { repo_info with repo_id := model.repo_id }
      match hf_token_check ri.repo_id ri.hf_token with
      | .exit code => (.exit code, false)
      | .exn => (.exn, false)
      | .ok _ =>
          let revision := some (ri.repo_version.getD model.repo_version)
          match get_repo_commit_id (lookup revision) with
          | .exit code => (.exit code, true)
          | .exn => (.exn, true)
          | .ok commit =>
              let ri := { ri with repo_version := some commit }
              let hp :=
                if handler_path == "" then
                  match model.handler with
                  | some h => h
                  | none => handler_path
                else handler_path
              if handler_exists then (.ok (ri, hp, false), true)
              else (.exit 1, true)
  | none =>
      if !download_model then
        let hp := if handler_path == "" then HANDLER else handler_path
        let ri :=
          { repo_info with
              repo_version := some (repo_info.repo_version.getD "1.0") }
        (.ok (ri, hp, true), false)
      else if repo_info.repo_id != "" then
        match hf_token_check repo_info.repo_id repo_info.hf_token with
        | .exit code => (.exit code, false)
        | .exn => (.exn, false)
        | .ok _ =>
            match get_repo_commit_id (lookup repo_info.repo_version) with
            | .exit code => (.exit code, true)
            | .exn => (.exn, true)
            | .ok commit =>
                let ri := { repo_info with repo_version := some commit }
                let hp := if handler_path == "" then HANDLER else handler_path
                (.ok (ri, hp, true), true)
      else (.exit 1, false)

/-! ## `llm/utils/marsgen.py`: `generate_mars` -/

/-- The observable events of the `try`/`except` block of `generate_mars`
(marsgen.py lines 148-168) around the background size-monitor thread. -/
inductive MarsEv where
  | threadStart
  | archiverRun (ok : Bool)
  | stopSet
  | threadJoin
  | printGenerated
  | printFailed
  | exitOne
  deriving DecidableEq, Repr

/-- Embeds the `try`/`except` block of `generate_mars` (marsgen.py lines
148-168), parameterised by whether `subprocess.check_call` on the
`torch-model-archiver` command returns normally (`archiver_ok = true`) or
raises `subprocess.CalledProcessError` (`archiver_ok = false`).  On
success the code sets `stop_monitoring`, joins `mar_size_thread` and
prints the success line; on `CalledProcessError` control jumps to the
except clause, which prints the failure line and calls `sys.exit(1)`. -/
def generate_mars_events (archiver_ok : Bool) : List MarsEv :=
  [.threadStart, .archiverRun archiver_ok] ++
    (if archiver_ok then [.stopSet, .threadJoin, .printGenerated]
     else [.printFailed, .exitOne])

/-! ## `llm/kubeflow_inference_run.py` -/

/-- kubeflow_inference_run.py line 28. -/
def kubMemUnits : List String := ["Ei", "Pi", "Ti", "Gi", "Mi", "Ki"]

/-- Python's substring test `sub in s` on strings. -/
def str_in (sub s : String) : Bool :=
  decide (sub.toList <:+: s.toList)

/-- The memory-unit validation of `execute` (kubeflow_inference_run.py
line 322): `any(unit in params.mem for unit in kubMemUnits)`. -/
def mem_unit_valid (mem : String) : Bool :=
  kubMemUnits.any fun unit => str_in unit mem

/-- The cluster-mutating calls of `execute` (kubeflow_inference_run.py
lines 363-365). -/
inductive ClusterMutation where
  | createPV
  | createPVC
  | createISVC
  deriving DecidableEq, Repr

/-- Embeds the control flow of `execute` (kubeflow_inference_run.py lines
310-375) as far as cluster mutations are concerned.  Environment checks
are passed in as booleans: `mount_ok` for `check_if_path_exists` on
`mount_path`, `nfs_ok` for the `<address>:<share_path>` split check,
`version_ok` for `check_if_valid_version` (which can `sys.exit(1)`),
`health_ok` for the later `health_check`.  The result is the list of
cluster mutations performed, paired with `some 1` when the run ends in
`sys.exit(1)` and `none` when it runs to completion. -/
def execute (mem : String) (mount_ok nfs_ok version_ok health_ok : Bool) :
    List ClusterMutation × Option Nat :=
  if !(mem_unit_valid mem) then ([], some 1)
  else if !mount_ok then ([], some 1)
  else if !nfs_ok then ([], some 1)
  else if !version_ok then ([], some 1)
  else if !health_ok then
    ([.createPV, .createPVC, .createISVC], some 1)
  else
    ([.createPV, .createPVC, .createISVC], none)

/-- Loop body of `execute_inference_on_inputs` (kubeflow_inference_run.py
lines 234-271).  `results` is the per-input value of
`response and response.status_code == 200`; `is_success` carries the
local variable of the same name, `none` before its first assignment.
After the loop `return is_success` raises `UnboundLocalError` when the
variable was never assigned (empty input list). -/
def execute_inference_loop (results : List Bool) (retry : Bool)
    (is_success : Option Bool) : PyRes Bool :=
  match results with
  | [] =>
      match is_success with
      | none => .exn
      | some b => .ok b
  | r :: rest =>
      if r then execute_inference_loop rest retry (some true)
      else if !retry then .exit 1
      else execute_inference_loop rest retry (some false)

/-- Embeds `execute_inference_on_inputs` (kubeflow_inference_run.py lines
209-271). -/
def execute_inference_on_inputs (results : List Bool) (retry : Bool) :
    PyRes Bool :=
  execute_inference_loop results retry none

/-- The `while` loop of `health_check` (kubeflow_inference_run.py lines
289-299), from the state `retry_count = k`, `success = False`:
`while not success and retry_count * sleep_time < model_timeout` with
`sleep_time = 30`; each iteration runs one inference attempt, and on
failure sleeps 30s and increments `retry_count`.  `attempt k` is the
success of the `k`-th attempt.  Returns the number of attempts made from
this state and the final value of `success`. -/
def health_check_loop (model_timeout : Nat) (attempt : Nat → Bool)
    (retry_count : Nat) : Nat × Bool :=
  if h : retry_count * 30 < model_timeout then
    if attempt retry_count then (1, true)
    else
      let rest := health_check_loop model_timeout attempt (retry_count + 1)
      (rest.1 + 1, rest.2)
  else (0, false)
termination_by model_timeout - retry_count * 30
decreasing_by omega

/-- Outcome of `health_check`: how many inference attempts were made and
whether the function ended in the fatal `sys.exit(1)` branch
(kubeflow_inference_run.py lines 301-307). -/
structure HealthCheckResult where
  attempts : Nat
  fatal_exit : Bool
  deriving DecidableEq, Repr

/-- Embeds `health_check` (kubeflow_inference_run.py lines 274-307).
`responses` gives, for each attempt index, the success of the single
inference request that `execute_inference_on_inputs` runs on the sample
input with `retry=True`. -/
def health_check (model_timeout : Nat) (responses : Nat → Bool) :
    HealthCheckResult :=
  let r := health_check_loop model_timeout
    (fun k =>
      match execute_inference_on_inputs [responses k] true with
      | .ok b => b
      | _ => false) 0
  { attempts := r.1, fatal_exit := !r.2 }

example : compare_lists ["a", "b"] ["b", "a"] = true := by decide
example : compare_lists ["a", "a"] ["a"] = false := by decide
example : filter_files_by_extension ["x.bin", "y.safetensors"]
    FILE_EXTENSIONS_TO_IGNORE = ["x.bin"] := by decide
example : filter_files_by_extension ["x.bin"] [] = [] := by decide
example : create_mar "m" (some ["m.mar"]) false true true false = .skip := by
  decide

/-! ## Helper lemmas -/

/-- When every attempt fails, the `health_check` loop started at
`retry_count` runs `⌈(model_timeout - 30 * retry_count) / 30⌉` more
iterations and ends with `success = False`. -/
theorem health_check_loop_fail (model_timeout retry_count : Nat) :
    health_check_loop model_timeout (fun _ => false) retry_count
      = ((model_timeout - 30 * retry_count + 29) / 30, false) := by
  rw [health_check_loop]
  split
  · next h =>
    rw [health_check_loop_fail model_timeout (retry_count + 1)]
    simp only [Bool.false_eq_true, if_false, Prod.mk.injEq, and_true]
    omega
  · next h =>
    simp only [Prod.mk.injEq, and_true]
    omega
termination_by model_timeout - retry_count * 30
decreasing_by omega

/-- `health_check` under an endpoint that always fails: it makes
`⌈model_timeout / 30⌉` attempts and ends in the fatal exit branch. -/
theorem health_check_allFail (model_timeout : Nat) :
    health_check model_timeout (fun _ => false)
      = ⟨(model_timeout + 29) / 30, true⟩ := by
  unfold health_check
  rw [show (fun k =>
        match execute_inference_on_inputs [(fun _ => false) k] true with
        | .ok b => b
        | _ => false) = (fun _ => false) from rfl]
  rw [health_check_loop_fail]
  simp

/-- The loop of `execute_inference_on_inputs` with `retry=True` returns
the status of the last input, whatever the accumulator holds. -/
theorem execute_inference_loop_last (results : List Bool) (r : Bool)
    (acc : Option Bool) :
    execute_inference_loop (results ++ [r]) true acc = .ok r := by
  induction results generalizing acc with
  | nil => cases r <;> rfl
  | cons head tail ih =>
      cases head <;> simp [execute_inference_loop, ih]

/-- `compare_lists` decides equality of element multiplicities. -/
theorem compare_lists_eq_true_iff (list1 list2 : List String) :
    compare_lists list1 list2 = true
      ↔ ∀ x, list1.count x = list2.count x := by
  unfold compare_lists
  rw [List.all_eq_true]
  constructor
  · intro h x
    by_cases hx : x ∈ list1 ++ list2
    · simpa using h x hx
    · rw [List.mem_append] at hx
      push_neg at hx
      rw [List.count_eq_zero_of_not_mem hx.1,
        List.count_eq_zero_of_not_mem hx.2]
  · intro h x _
    simpa using h x

/-! ## Claim theorems -/

/-- C1 (corrected): with an endpoint that always fails, `health_check`
with positive `model_timeout` makes exactly `⌈model_timeout / 30⌉`
(not `⌊model_timeout / 30⌋`) inference attempts, sleeping 30 seconds
after each failed attempt, and then terminates fatally with exit code 1;
it never loops forever (the loop is a total function). -/
theorem c1_health_check_always_fail_ceil_attempts (model_timeout : Nat)
    (_hpos : 0 < model_timeout) :
    health_check model_timeout (fun _ => false)
      = ⟨(model_timeout + 29) / 30, true⟩ :=
  health_check_allFail model_timeout

/-- C1 witness: at `model_timeout = 60` the health check makes
`⌈60 / 30⌉ = 2` attempts and exits fatally. -/
theorem c1_witness :
    0 < 60 ∧ health_check 60 (fun _ => false) = ⟨2, true⟩ :=
  ⟨by decide, c1_health_check_always_fail_ceil_attempts 60 (by decide)⟩

/-- C1 counterexample: at `model_timeout = 31` the code makes 2 attempts,
not `⌊31 / 30⌋ = 1` as the claim states. -/
theorem c1_counterexample :
    (health_check 31 (fun _ => false)).attempts ≠ 31 / 30 := by
  rw [health_check_allFail]
  decide

/-- C2 (corrected): `compare_lists` returns `True` exactly when the two
lists are equal as multisets (the same paths with the same
multiplicities, in any order); it is order-insensitive but
duplicate-sensitive, since `Counter` equality compares counts. -/
theorem c2_compare_lists_multiset_equality (list1 list2 : List String) :
    compare_lists list1 list2 = true ↔ list1.Perm list2 :=
  (compare_lists_eq_true_iff list1 list2).trans List.perm_iff_count.symm

/-- C2 counterexample: `["a", "a"]` and `["a"]` denote the same set of
relative paths, yet `compare_lists` returns `False` on them, refuting
duplicate-insensitivity. -/
theorem c2_counterexample :
    compare_lists ["a", "a"] ["a"] = false
      ∧ ∀ x : String, x ∈ (["a", "a"] : List String)
          ↔ x ∈ (["a"] : List String) :=
  ⟨by decide, fun x => by simp⟩

/-- C9 (confirmed): with an empty `extensions_to_remove` list the joined
regex pattern is the empty string, which matches every filename, so
`filter_files_by_extension filenames []` removes everything and returns
`[]`; filtering with no ignore extensions is not the identity. -/
theorem c9_filter_empty_extension_list (filenames : List String) :
    filter_files_by_extension filenames [] = [] := by
  simp [filter_files_by_extension, search_joined_pattern]

/-- C10 (confirmed): with `retry=True` and a non-empty input list,
`execute_inference_on_inputs` returns the success status of the last
input only (the `is_success` flag is overwritten every iteration), and on
the empty list it raises `UnboundLocalError` instead of returning a
boolean. -/
theorem c10_inference_last_result_wins :
    (∀ (results : List Bool) (last : Bool),
        execute_inference_on_inputs (results ++ [last]) true = .ok last)
      ∧ execute_inference_on_inputs [] true = .exn :=
  ⟨fun results last => execute_inference_loop_last results last none, rfl⟩

/-- C3 (corrected): `create_mar` takes its skip branch (printing that the
archive is present and doing nothing else) exactly when `mar_output`
exists, holds exactly one entry, and that entry is `{model_name}.mar`;
when that condition fails and the pre-packaging validation passes — the
model path exists and, for catalog models, the local files match the
repository (for custom models, the model folder is non-empty) —
`generate_mars` is invoked. -/
theorem c3_create_mar_skip_iff_single_archive (model_name : String)
    (mar_output : Option (List String))
    (is_custom model_path_exists model_files_match model_folder_empty : Bool)
    (hvalid : model_path_exists = true
      ∧ (is_custom = false → model_files_match = true)
      ∧ (is_custom = true → model_folder_empty = false)) :
    (create_mar model_name mar_output is_custom model_path_exists
        model_files_match model_folder_empty = .skip
      ↔ check_if_mar_file_exist model_name mar_output = true)
    ∧ (create_mar model_name mar_output is_custom model_path_exists
        model_files_match model_folder_empty = .generated
      ↔ check_if_mar_file_exist model_name mar_output = false) := by
  obtain ⟨hmp, hnc, hcu⟩ := hvalid
  subst hmp
  by_cases hc : check_if_mar_file_exist model_name mar_output = true
  · simp [create_mar, hc]
  · have hc' : check_if_mar_file_exist model_name mar_output = false := by
      simpa using hc
    cases hcust : is_custom
    · have hm := hnc hcust
      simp [create_mar, hcust, hc', hm]
    · have he := hcu hcust
      simp [create_mar, hcust, hc', he]

/-- C3 witness: with a matching single-entry archive directory and passing
validation, the skip/generate dichotomy holds at a concrete input. -/
theorem c3_witness :
    (create_mar "m" (some ["m.mar"]) false true true false = .skip
      ↔ check_if_mar_file_exist "m" (some ["m.mar"]) = true)
    ∧ (create_mar "m" (some ["m.mar"]) false true true false = .generated
      ↔ check_if_mar_file_exist "m" (some ["m.mar"]) = false) :=
  c3_create_mar_skip_iff_single_archive "m" (some ["m.mar"]) false true true
    false ⟨rfl, fun _ => rfl, fun h => nomatch h⟩

/-- C3 counterexample: when the archive is absent (`mar_output` does not
exist) and a catalog model's local files do not match the repository,
`create_mar` exits with code 1 and never invokes `generate_mars`, so
"does not invoke `generate_mars`" is not equivalent to the
single-archive condition as the claim states. -/
theorem c3_counterexample :
    ¬ ((create_mar "m" none false true false false ≠ .generated)
      ↔ check_if_mar_file_exist "m" none = true) := by
  decide

/-- C4 (code bug evaluated): when the archiver subprocess raises
`CalledProcessError`, the `except` clause of `generate_mars` prints the
failure and calls `sys.exit(1)` without ever setting `stop_monitoring` or
joining `mar_size_thread`, while on success both happen before return. -/
theorem c4_monitor_not_stopped_on_failure :
    generate_mars_events false
        = [.threadStart, .archiverRun false, .printFailed, .exitOne]
      ∧ MarsEv.stopSet ∉ generate_mars_events false
      ∧ MarsEv.threadJoin ∉ generate_mars_events false
      ∧ MarsEv.stopSet ∈ generate_mars_events true
      ∧ MarsEv.threadJoin ∈ generate_mars_events true := by
  decide

/-- C5 (confirmed): when the requested memory string contains none of the
recognized binary-unit suffixes, `execute` exits with code 1 before any
cluster mutation (`create_pv`, `create_pvc`, `create_isvc`) is made; and
a memory string that carries a recognized unit as a suffix passes this
validation. -/
theorem c5_memory_unit_validation (mem : String)
    (mount_ok nfs_ok version_ok health_ok : Bool) :
    (mem_unit_valid mem = false →
      execute mem mount_ok nfs_ok version_ok health_ok = ([], some 1))
    ∧ (∀ u ∈ kubMemUnits, u.toList <:+ mem.toList →
        mem_unit_valid mem = true) := by
  constructor
  · intro h
    simp [execute, h]
  · intro u hu hsuffix
    unfold mem_unit_valid
    rw [List.any_eq_true]
    refine ⟨u, hu, decide_eq_true ?_⟩
    obtain ⟨t, ht⟩ := hsuffix
    refine ⟨t, [], ?_⟩
    rw [List.append_nil]
    exact ht

/-- C5 witness: `"4"` (no unit) aborts with exit code 1 and no cluster
mutation, while `"4Gi"` passes the memory-unit validation. -/
theorem c5_witness :
    execute "4" true true true true = ([], some 1)
      ∧ mem_unit_valid "4Gi" = true :=
  ⟨(c5_memory_unit_validation "4" true true true true).1 (by decide),
   (c5_memory_unit_validation "4Gi" true true true true).2 "Gi" (by decide)
     (by decide)⟩

/-- C6 (confirmed): for a catalog model whose `repo_id` lies in the
access-gated `meta-llama` namespace and a `None` token,
`read_config_for_download` exits with code 1 from `hf_token_check`
without attempting any hub commit lookup (second component `false`); for
a non-gated `repo_id` or a non-null token, `hf_token_check` performs no
exit. -/
theorem c6_gated_repo_requires_token (repo_id : String)
    (token : Option String) (cfg_version : String) (handler : Option String)
    (download_model : Bool) (ri : RepoInfo) (handler_path : String)
    (lookup : Option String → Except Unit (List String))
    (handler_exists : Bool) :
    (starts_with repo_id "meta-llama" = true → token = none →
      read_config_for_download (some ⟨repo_id, cfg_version, handler⟩)
          download_model { ri with hf_token := token } handler_path lookup
          handler_exists
        = (.exit 1, false))
    ∧ (starts_with repo_id "meta-llama" = false ∨ token ≠ none →
        hf_token_check repo_id token = .ok ()) := by
  constructor
  · intro hgated htoken
    subst htoken
    simp [read_config_for_download, hf_token_check, hgated]
  · intro h
    rcases h with h | h
    · simp [hf_token_check, h]
    · cases htok : token with
      | none => exact absurd htok h
      | some t => simp [hf_token_check]

/-- C6 witness: a gated repo id with no token exits before any lookup; a
non-gated repo id passes the token check. -/
theorem c6_witness :
    read_config_for_download
        (some ⟨"meta-llama/Llama-2-7b-hf", "main", none⟩) true
        ⟨"", none, none⟩ "" (fun _ => .ok []) true
      = (.exit 1, false)
      ∧ hf_token_check "gpt2" none = .ok () :=
  ⟨(c6_gated_repo_requires_token "meta-llama/Llama-2-7b-hf" none "main"
      none true ⟨"", none, none⟩ "" (fun _ => .ok []) true).1 (by decide) rfl,
   (c6_gated_repo_requires_token "gpt2" none "main" none true
      ⟨"", none, none⟩ "" (fun _ => .ok []) true).2 (Or.inl (by decide))⟩

/-- C8 (confirmed): when the token check passes and the hub commit-history
lookup succeeds with a non-empty most-recent-first list,
`get_repo_commit_id` returns the first entry, and
`read_config_for_download` stores that canonical commit id as
`repo_info.repo_version` in the model it hands to the later download and
packaging stages. -/
theorem c8_repo_version_resolved_to_head_commit (repo_id cfg_version : String)
    (handler : Option String) (download_model : Bool) (ri : RepoInfo)
    (handler_path : String)
    (lookup : Option String → Except Unit (List String))
    (commit : String) (rest : List String)
    (htok : hf_token_check repo_id ri.hf_token = .ok ())
    (hlookup : lookup (some (ri.repo_version.getD cfg_version))
      = .ok (commit :: rest)) :
    get_repo_commit_id (lookup (some (ri.repo_version.getD cfg_version)))
        = .ok commit
    ∧ ∃ hp, read_config_for_download (some ⟨repo_id, cfg_version, handler⟩)
          download_model ri handler_path lookup true
        = (.ok ({ ri with repo_id := repo_id, repo_version := some commit },
            hp, false), true) := by
  constructor
  · rw [hlookup]
    rfl
  · refine ⟨if handler_path == "" then
        (match handler with | some h => h | none => handler_path)
      else handler_path, ?_⟩
    simp only [read_config_for_download]
    rw [show ({ ri with repo_id := repo_id } : RepoInfo).hf_token
        = ri.hf_token from rfl] at *
    rw [htok, hlookup]
    simp [get_repo_commit_id]

/-- C8 witness: a successful two-commit lookup resolves `repo_version` to
the most recent commit id `"c1"`. -/
theorem c8_witness :
    get_repo_commit_id (.ok ["c1", "c0"]) = .ok "c1"
      ∧ ∃ hp, read_config_for_download (some ⟨"gpt2", "main", none⟩) true
            ⟨"", none, none⟩ "h.py" (fun _ => .ok ["c1", "c0"]) true
          = (.ok (⟨"gpt2", some "c1", none⟩, hp, false), true) :=
  c8_repo_version_resolved_to_head_commit "gpt2" "main" none true
    ⟨"", none, none⟩ "h.py" (fun _ => .ok ["c1", "c0"]) "c1" ["c0"] rfl rfl

/-- C7 (corrected): with no catalog registration overrides, the
`model_snapshot` parameters are the fixed defaults `minWorkers = 1`,
`maxWorkers = 1`, `batchSize = 1`, `maxBatchDelay = 500`,
`responseTimeout = 2000` and the version key is the resolved
`repo_version`; when `registration_params` are present, each override is
used — with `minWorkers` and `maxWorkers` both taken from
`initial_workers` — provided the override value is non-zero (Python's
`or` sends a present-but-zero value back to the default). -/
theorem c7_snapshot_params (repo_version : String) (p : RegistrationParams)
    (iw bs mbd rt : Nat)
    (hiw : p.initial_workers = some iw) (hbs : p.batch_size = some bs)
    (hmbd : p.max_batch_delay = some mbd) (hrt : p.response_timeout = some rt)
    (hiw0 : iw ≠ 0) (hbs0 : bs ≠ 0) (hmbd0 : mbd ≠ 0) (hrt0 : rt ≠ 0) :
    set_config_snapshot repo_version none
        = ⟨repo_version, 1, 1, 1, 500, 2000⟩
      ∧ set_config_snapshot repo_version (some p)
        = ⟨repo_version, iw, iw, bs, mbd, rt⟩ := by
  constructor
  · rfl
  · simp [set_config_snapshot, get_params_for_registration, py_or,
      hiw, hbs, hmbd, hrt, hiw0, hbs0, hmbd0, hrt0]

/-- C7 witness: defaults with no overrides, and override values `2, 3, 4,
5` taken verbatim with `minWorkers = maxWorkers = initial_workers`. -/
theorem c7_witness :
    set_config_snapshot "v" none = ⟨"v", 1, 1, 1, 500, 2000⟩
      ∧ set_config_snapshot "v" (some ⟨some 2, some 3, some 4, some 5⟩)
        = ⟨"v", 2, 2, 3, 4, 5⟩ :=
  c7_snapshot_params "v" ⟨some 2, some 3, some 4, some 5⟩ 2 3 4 5 rfl rfl rfl
    rfl (by decide) (by decide) (by decide) (by decide)

/-- C7 counterexample: with `registration_params` present and
`initial_workers = 0`, the snapshot line gets `minWorkers = 1`, not the
catalog value `0`, refuting "those values are used instead" as stated. -/
theorem c7_counterexample :
    (set_config_snapshot "v"
        (some ⟨some 0, some 2, some 3, some 4⟩)).minWorkers ≠ 0 := by
  decide
